import Mathlib

/-!
Verification of the token-proxy / affiliate-link server (src/index.js).

The JavaScript source is shallowly embedded: every handler and helper is a
pure Lean function, with the mutable token cache passed explicitly as state
and upstream HTTP effects supplied as explicit arguments describing the
outcome of the (at most one) upstream call a code path can perform.
JavaScript `undefined`/`null`/absent values are modelled with `Option`;
JavaScript `NaN` arising in the expiry arithmetic is modelled by `none` in
`Option Int`; JavaScript truthiness tests on strings are modelled by
`strTruthy`.  The builtins `encodeURIComponent`, `decodeURIComponent`,
`parseInt(·,10)`, `Math.min`, `String.prototype.trim` and
`String.prototype.includes` are modelled by executable Lean functions with
the ECMAScript semantics relevant here.
-/

/-- Model of JavaScript truthiness for a nullable string value:
`null`/`undefined` and the empty string are falsy. -/
def strTruthy : Option String → Bool
  | some s => !(s == "")
  | none => false

/-- Model of JavaScript `a || b` for a nullable string `a` (used by
`req.query.limit || '25'`): falsy (`null`/`undefined`/empty) falls back. -/
def jsOrStr : Option String → String → String
  | some s, d => if s == "" then d else s
  | none, d => d

/-- Model of JavaScript `a || b` for a nullable number `a` (used by
`body.total || summaries.length` and `err.response?.status || 500`):
`null`/`undefined`/`0` fall back. -/
def jsOrInt : Option Int → Int → Int
  | some n, d => if n == 0 then d else n
  | none, d => d

/-- Model of JavaScript `a > b` where `a` may be `NaN` (modelled `none`):
any comparison against `NaN` is false. -/
def jsGtOpt : Option Int → Int → Bool
  | some a, b => decide (b < a)
  | none, _ => false

/-- Model of JavaScript `Math.min(a, b)` where `a` may be `NaN`
(modelled `none`): `NaN` propagates. -/
def jsMinNaN : Option Int → Int → Option Int
  | some a, b => some (min a b)
  | none, _ => none

/-- Model of JavaScript `s.includes(c)` for a single-character needle. -/
def jsIncludes (s : String) (c : Char) : Bool :=
  decide (c ∈ s.data)

/-- Model of JavaScript `String.prototype.trim`: strip leading and trailing
whitespace. -/
def jsTrim (s : String) : String :=
  String.mk (((s.data.dropWhile Char.isWhitespace).reverse.dropWhile
    Char.isWhitespace).reverse)

/-- Concatenation of a list of strings (right fold). -/
def strConcat (l : List String) : String :=
  l.foldr (fun a b => a ++ b) ""

/-- Uppercase hexadecimal digit for a value below 16. -/
def hexUpper (n : Nat) : Char :=
  if n < 10 then Char.ofNat (48 + n) else Char.ofNat (55 + n)

/-- UTF-8 byte sequence of a Unicode code point (arithmetic form of the
usual shift/mask definition; agrees with it on all valid code points). -/
def utf8Bytes (n : Nat) : List Nat :=
  if n < 128 then [n]
  else if n < 2048 then [192 + n / 64, 128 + n % 64]
  else if n < 65536 then [224 + n / 4096, 128 + (n / 64) % 64, 128 + n % 64]
  else [240 + n / 262144, 128 + (n / 4096) % 64, 128 + (n / 64) % 64,
    128 + n % 64]

/-- The characters `encodeURIComponent` leaves unescaped:
`A-Z a-z 0-9 - _ . ! ~ * ' ( )`. -/
def isUnreservedChar (c : Char) : Bool :=
  decide ((65 ≤ c.toNat ∧ c.toNat ≤ 90) ∨ (97 ≤ c.toNat ∧ c.toNat ≤ 122) ∨
    (48 ≤ c.toNat ∧ c.toNat ≤ 57) ∨
    c.toNat ∈ ([45, 95, 46, 33, 126, 42, 39, 40, 41] : List Nat))

/-- Percent escape `%XY` of one byte, uppercase hex. -/
def percentByte (b : Nat) : String :=
  String.mk ['%', hexUpper (b / 16), hexUpper (b % 16)]

/-- Encoding of a single character as `encodeURIComponent` does it. -/
def encodeChar (c : Char) : String :=
  if isUnreservedChar c then String.singleton c
  else strConcat ((utf8Bytes c.toNat).map percentByte)

/-- Model of the JavaScript builtin `encodeURIComponent`. -/
def encodeURIComponent (s : String) : String :=
  strConcat (s.data.map encodeChar)

/-- Numeric value of one hexadecimal digit (either case), if any. -/
def hexVal (c : Char) : Option Nat :=
  if 48 ≤ c.toNat ∧ c.toNat ≤ 57 then some (c.toNat - 48)
  else if 65 ≤ c.toNat ∧ c.toNat ≤ 70 then some (c.toNat - 55)
  else if 97 ≤ c.toNat ∧ c.toNat ≤ 102 then some (c.toNat - 87)
  else none

/-- Read one `%XY` escape from the front of the character list. -/
def readEscByte : List Char → Option (Nat × List Char)
  | '%' :: h1 :: h2 :: rest => do
    let a ← hexVal h1
    let b ← hexVal h2
    pure (a * 16 + b, rest)
  | _ => none

/-- Read `n` UTF-8 continuation bytes, each written as a `%XY` escape. -/
def readContBytes : Nat → List Char → Option (List Nat × List Char)
  | 0, l => some ([], l)
  | n + 1, l => do
    let (b, l1) ← readEscByte l
    if 128 ≤ b ∧ b < 192 then do
      let (bs, l2) ← readContBytes n l1
      pure (b :: bs, l2)
    else none

/-- Number of continuation bytes demanded by a UTF-8 lead byte. -/
def contLen (b : Nat) : Option Nat :=
  if b < 128 then some 0
  else if b < 192 then none
  else if b < 224 then some 1
  else if b < 240 then some 2
  else if b < 248 then some 3
  else none

/-- Strict UTF-8 decoding of a lead byte plus its continuation bytes:
rejects overlong forms, surrogates and values above `0x10FFFF`. -/
def utf8Decode : Nat → List Nat → Option Nat
  | b, [] => if b < 128 then some b else none
  | b, [c1] =>
    if 192 ≤ b ∧ b < 224 then
      let cp := (b - 192) * 64 + (c1 - 128)
      if 128 ≤ cp then some cp else none
    else none
  | b, [c1, c2] =>
    if 224 ≤ b ∧ b < 240 then
      let cp := (b - 224) * 4096 + (c1 - 128) * 64 + (c2 - 128)
      if 2048 ≤ cp ∧ ¬(55296 ≤ cp ∧ cp ≤ 57343) then some cp else none
    else none
  | b, [c1, c2, c3] =>
    if 240 ≤ b ∧ b < 248 then
      let cp := (b - 240) * 262144 + (c1 - 128) * 4096 + (c2 - 128) * 64 +
        (c3 - 128)
      if 65536 ≤ cp ∧ cp ≤ 1114111 then some cp else none
    else none
  | _, _ => none

/-- Main loop of `decodeURIComponent`, fuel-indexed (the fuel is an upper
bound on the number of produced characters; every step consumes at least
one input character, so `fuel = length` never runs out). -/
def decodeLoop : Nat → List Char → Option (List Char)
  | _, [] => some []
  | 0, _ :: _ => none
  | fuel + 1, '%' :: r0 =>
    match readEscByte ('%' :: r0) with
    | none => none
    | some (b, rest) =>
      match contLen b with
      | none => none
      | some n =>
        match readContBytes n rest with
        | none => none
        | some (bs, rest2) =>
          match utf8Decode b bs with
          | none => none
          | some cp =>
            match decodeLoop fuel rest2 with
            | none => none
            | some tail => some (Char.ofNat cp :: tail)
  | fuel + 1, c :: rest =>
    match decodeLoop fuel rest with
    | none => none
    | some tail => some (c :: tail)

/-- Model of the JavaScript builtin `decodeURIComponent`:
`none` models a thrown `URIError`. -/
def decodeURIComponent (s : String) : Option String :=
  (decodeLoop s.data.length s.data).map String.mk

/-- Value of a string of decimal digits (accumulator form). -/
def digitsToNat : List Char → Nat → Nat
  | [], acc => acc
  | c :: cs, acc => digitsToNat cs (acc * 10 + (c.toNat - 48))

/-- Model of the JavaScript builtin `parseInt(s, 10)`: skip leading
whitespace, optional sign, then the longest prefix of decimal digits;
`none` models `NaN` (no digits). -/
def jsParseInt10 (s : String) : Option Int :=
  let cs := s.data.dropWhile Char.isWhitespace
  let signAndRest : Int × List Char :=
    match cs with
    | '-' :: r => (-1, r)
    | '+' :: r => (1, r)
    | _ => (1, cs)
  let digs := signAndRest.2.takeWhile Char.isDigit
  if digs.isEmpty then none
  else some (signAndRest.1 * (digitsToNat digs 0 : Int))

/-!
## Affiliate URL Builder (src/index.js, `buildAffiliateUrl`, lines 66-77)

The campaign identifier (`process.env.EPN_CAMPAIGN_ID`) is process-wide
configuration; it is passed as the first argument.  The JS constants
`MKEVT = '1'`, `MKCID = '1'`, `TOOLID = '10001'` are interpolated into the
template literal, giving the literal segments below.  `if (customId)`
tests truthiness, so `null`/absent and the empty string both skip the
`customid` parameter.
-/

/-- `buildAffiliateUrl(itemWebUrl, customId)` from src/index.js. -/
def buildAffiliateUrl (campaignId : String) (itemWebUrl : String)
    (customId : Option String) : String :=
  let CAMPID := encodeURIComponent campaignId
  let separator := if jsIncludes itemWebUrl '?' then "&" else "?"
  let out := itemWebUrl ++ separator ++
    ("mkevt=1&mkcid=1&campid=" ++ CAMPID ++ "&toolid=10001")
  match customId with
  | some c => if c == "" then out else out ++ ("&customid=" ++ encodeURIComponent c)
  | none => out

/-!
## Token Manager (src/index.js, `getAppToken`, lines 24-25 and 44-62)

`let cached = { token: null, expiresAt: 0 }` is the process-wide cache; it
is threaded explicitly.  `cached.token` may be `null` (initial), a string
stored from `resp.data.access_token`, or `undefined` when that field was
missing from a 2xx response body — all non-string cases collapse to
`none`.  `cached.expiresAt` is a JS number that becomes `NaN` when
`resp.data.expires_in` is missing (`now + undefined * 1000`), hence
`Option Int` with `none` for `NaN`.

The single upstream POST is modelled by an `UpstreamAuth` argument:
`success d` is a 2xx response whose parsed body has the given (possibly
missing) fields; `failure st body` is a thrown axios error (network
error: `st = none`; non-2xx: `st = some status`), carrying the upstream
status and body when available.
-/

/-- Parsed body of a 2xx token-endpoint response: either field may be
absent (`undefined` in JS). -/
structure TokenRespData where
  access_token : Option String
  expires_in : Option Int
deriving DecidableEq

/-- The process-wide token cache (`cached` in src/index.js); its initial
value is `⟨none, some 0⟩`. -/
structure TokenCache where
  token : Option String
  expiresAt : Option Int
deriving DecidableEq

/-- Outcome of the upstream OAuth client-credentials POST. -/
inductive UpstreamAuth where
  | success (data : TokenRespData)
  | failure (status : Option Int) (body : Option String)
deriving DecidableEq

/-- The error thrown out of `getAppToken` (an axios error): carries the
upstream HTTP status and response body when available. -/
structure UpstreamAuthError where
  status : Option Int
  body : Option String
deriving DecidableEq

/-- Result of one `getAppToken` call: returned value (or thrown error),
the cache afterwards, and whether the upstream POST was performed. -/
structure TokenStep where
  result : Except UpstreamAuthError (Option String)
  cache : TokenCache
  calledUpstream : Bool

/-- `getAppToken()` from src/index.js, lines 44-62.  `now` is the value of
`Date.now()` captured at entry. -/
def getAppToken (now : Int) (upstream : UpstreamAuth) (cached : TokenCache) :
    TokenStep :=
  if strTruthy cached.token && jsGtOpt cached.expiresAt (now + 5000) then
    ⟨.ok cached.token, cached, false⟩
  else
    match upstream with
    | .success d =>
      ⟨.ok d.access_token,
        ⟨d.access_token,
          match d.expires_in with
          | some e => some (now + e * 1000)
          | none => none⟩,
        true⟩
    | .failure st body => ⟨.error ⟨st, body⟩, cached, true⟩

/-!
## Search Proxy (src/index.js, `app.get('/search')`, lines 81-118)

Inputs: the query parameters `q` and `limit` (absent = `none`), the cache,
and the outcomes of the two possible upstream calls.  The upstream Browse
GET is modelled by `UpstreamSearch`; its 2xx body may be missing
(`r.data || {}`) and its fields may be absent.  The `price` and `image`
fields are opaque pass-through values, modelled as optional strings.
-/

/-- One upstream item summary (fields used by the handler; all may be
absent). -/
structure ItemSummary where
  itemId : Option String
  title : Option String
  price : Option String
  image : Option String
  itemWebUrl : Option String
deriving DecidableEq

/-- One item of the proxy's response: the pass-through fields plus the
derived `affiliateUrl`. -/
structure EnrichedItemSummary where
  itemId : Option String
  title : Option String
  price : Option String
  image : Option String
  itemWebUrl : Option String
  affiliateUrl : Option String
deriving DecidableEq

/-- The per-item mapping inside the `/search` handler (lines 100-110):
`it.itemWebUrl ? buildAffiliateUrl(it.itemWebUrl) : null` plus verbatim
copies of the other fields. -/
def enrichItem (campaignId : String) (it : ItemSummary) :
    EnrichedItemSummary :=
  ⟨it.itemId, it.title, it.price, it.image, it.itemWebUrl,
    match it.itemWebUrl with
    | some u => if u == "" then none else some (buildAffiliateUrl campaignId u none)
    | none => none⟩

/-- Parsed 2xx body of the upstream Browse search. -/
structure SearchBody where
  itemSummaries : Option (List ItemSummary)
  total : Option Int
deriving DecidableEq

/-- Outcome of the upstream Browse GET: a 2xx response with a (possibly
missing) body, or a thrown axios error with optional status and body. -/
inductive UpstreamSearch where
  | success (data : Option SearchBody)
  | failure (status : Option Int) (data : Option String)
deriving DecidableEq

/-- HTTP response sent by the `/search` handler. -/
inductive SearchResponse where
  | badRequest (error : String)
  | ok (total : Int) (items : List EnrichedItemSummary)
  | errorResp (status : Int) (error : String) (detail : Option String)
deriving DecidableEq

/-- Result of one `/search` request: the response, the cache afterwards,
whether the token endpoint was contacted, and — when the Browse endpoint
was contacted — the `q` and `limit` request parameters it received. -/
structure SearchStep where
  response : SearchResponse
  cache : TokenCache
  calledAuthUpstream : Bool
  searchCall : Option (String × Option Int)

/-- `Math.min(parseInt(req.query.limit || '25', 10), 100)` (line 86). -/
def effectiveLimit (limitParam : Option String) : Option Int :=
  jsMinNaN (jsParseInt10 (jsOrStr limitParam "25")) 100

/-- The `/search` handler from src/index.js, lines 81-118. -/
def searchHandler (campaignId : String) (q limitParam : Option String)
    (now : Int) (auth : UpstreamAuth) (srch : UpstreamSearch)
    (cache : TokenCache) : SearchStep :=
  if strTruthy q = false ∨ jsTrim (q.getD "") = "" then
    ⟨.badRequest "Missing q parameter", cache, false, none⟩
  else
    let s := q.getD ""
    let limit := effectiveLimit limitParam
    let ts := getAppToken now auth cache
    match ts.result with
    | .error e =>
      ⟨.errorResp (jsOrInt e.status 500) "search_error" e.body,
        ts.cache, ts.calledUpstream, none⟩
    | .ok _tok =>
      match srch with
      | .failure st data =>
        ⟨.errorResp (jsOrInt st 500) "search_error" data,
          ts.cache, ts.calledUpstream, some (s, limit)⟩
      | .success data =>
        let body := data.getD ⟨none, none⟩
        let summaries := (body.itemSummaries.getD []).map (enrichItem campaignId)
        ⟨.ok (jsOrInt body.total (summaries.length : Int)) summaries,
          ts.cache, ts.calledUpstream, some (s, limit)⟩

/-!
## Redirect Proxy (src/index.js, `app.get('/go')`, lines 122-133)

`req.query.url` is `none` when absent.  `if (!raw)` is a truthiness test,
so the empty string is also answered with 400 "Missing url".  The only
statement in the `try` block that can throw is `decodeURIComponent`
(string concatenation in `buildAffiliateUrl` cannot), so `catch` fires
exactly when decoding fails.
-/

/-- HTTP response sent by the `/go` handler. -/
inductive GoResponse where
  | badRequest (msg : String)
  | redirect (status : Int) (location : String)
deriving DecidableEq

/-- The `/go` handler from src/index.js, lines 122-133. -/
def goHandler (campaignId : String) (raw : Option String) : GoResponse :=
  match raw with
  | none => .badRequest "Missing url"
  | some r =>
    if r == "" then .badRequest "Missing url"
    else
      match decodeURIComponent r with
      | none => .badRequest "Invalid url"
      | some decoded => .redirect 302 (buildAffiliateUrl campaignId decoded none)

/-!
## Helper lemmas
-/

theorem strData_append (x y : String) : (x ++ y).data = x.data ++ y.data := rfl

theorem strData_empty : ("" : String).data = [] := rfl

theorem strExt {x y : String} (h : x.data = y.data) : x = y := by
  cases x
  cases y
  exact congrArg String.mk h

theorem strAppend_assoc (a b c : String) : a ++ b ++ c = a ++ (b ++ c) :=
  strExt (by simp [strData_append, List.append_assoc])

/-- Number of occurrences of `'?'` in a string. -/
def countQ (s : String) : Nat := s.data.count '?'

theorem countQ_append (x y : String) : countQ (x ++ y) = countQ x + countQ y := by
  simp [countQ, strData_append, List.count_append]

theorem countQ_eq_zero_of_not_includes {s : String}
    (h : jsIncludes s '?' = false) : countQ s = 0 := by
  unfold jsIncludes at h
  exact List.count_eq_zero.mpr (of_decide_eq_false h)

theorem char_toNat_lt (c : Char) : c.toNat < 1114112 := by
  rcases c.valid with h | ⟨_, h2⟩
  · exact Nat.lt_trans h (by norm_num)
  · exact h2

theorem utf8Bytes_lt {n : Nat} (hn : n < 1114112) :
    ∀ b ∈ utf8Bytes n, b < 256 := by
  intro b hb
  unfold utf8Bytes at hb
  split at hb
  · simp at hb
    omega
  · split at hb
    · simp at hb
      rcases hb with h | h <;> omega
    · split at hb
      · simp at hb
        rcases hb with h | h | h <;> omega
      · simp at hb
        rcases hb with h | h | h | h <;> omega

theorem hexUpper_ne_qmark : ∀ n < 16, hexUpper n ≠ '?' := by decide

theorem percentByte_countQ {b : Nat} (hb : b < 256) :
    (percentByte b).data.count '?' = 0 := by
  have e1 : (hexUpper (b / 16) == '?') = false :=
    beq_eq_false_iff_ne.mpr (hexUpper_ne_qmark _ (by omega))
  have e2 : (hexUpper (b % 16) == '?') = false :=
    beq_eq_false_iff_ne.mpr (hexUpper_ne_qmark _ (by omega))
  simp [percentByte, List.count_cons, List.count_nil, e1, e2]

theorem strConcat_countQ {l : List String}
    (h : ∀ s ∈ l, s.data.count '?' = 0) :
    (strConcat l).data.count '?' = 0 := by
  induction l with
  | nil => rfl
  | cons a t ih =>
    have ha := h a (by simp)
    have ht : ∀ s ∈ t, s.data.count '?' = 0 := fun s hs => h s (by simp [hs])
    have e : strConcat (a :: t) = a ++ strConcat t := rfl
    rw [e, strData_append, List.count_append, ha, ih ht]

theorem encodeChar_countQ (c : Char) : (encodeChar c).data.count '?' = 0 := by
  unfold encodeChar
  split
  case isTrue h =>
    have hne : (c == '?') = false := by
      refine beq_eq_false_iff_ne.mpr ?_
      intro hc
      subst hc
      exact absurd h (by decide)
    simp [String.singleton, List.count_cons, List.count_nil, hne]
  case isFalse h =>
    apply strConcat_countQ
    intro s hs
    simp only [List.mem_map] at hs
    obtain ⟨b, hb, rfl⟩ := hs
    exact percentByte_countQ (utf8Bytes_lt (char_toNat_lt c) b hb)

theorem encodeURIComponent_countQ (s : String) :
    countQ (encodeURIComponent s) = 0 := by
  unfold countQ encodeURIComponent
  apply strConcat_countQ
  intro x hx
  simp only [List.mem_map] at hx
  obtain ⟨c, _, rfl⟩ := hx
  exact encodeChar_countQ c

/-- Closed form of `buildAffiliateUrl` as one flat concatenation. -/
theorem buildAffiliateUrl_eq (cid u : String) (custom : Option String) :
    buildAffiliateUrl cid u custom =
      u ++ (if jsIncludes u '?' then "&" else "?") ++
        "mkevt=1&mkcid=1&campid=" ++ encodeURIComponent cid ++
        "&toolid=10001" ++
        (match custom with
         | some c => if c == "" then "" else "&customid=" ++ encodeURIComponent c
         | none => "") := by
  apply strExt
  cases custom with
  | none => simp [buildAffiliateUrl, strData_append, strData_empty, List.append_assoc]
  | some c =>
    by_cases hc : (c == "") = true
    · simp [buildAffiliateUrl, hc, strData_append, strData_empty, List.append_assoc]
    · simp only [Bool.not_eq_true] at hc
      simp [buildAffiliateUrl, hc, strData_append, strData_empty, List.append_assoc]

/-!
## Claim theorems
-/

/-- C1: for every itemUrl and campaign identifier, `buildAffiliateUrl`
returns itemUrl, then the separator (`?` when itemUrl contains no `?`,
else `&`), then `mkevt=1&mkcid=1&campid=<percent-encoded campaignId>&toolid=10001`
in exactly that order, with `&customid=<percent-encoded customId>` appended
when a (non-empty) customId is provided; consequently, for any itemUrl
without a query string the output contains exactly one `?`. -/
theorem c1_affiliate_url_format (campaignId itemUrl : String)
    (customId : Option String) :
    buildAffiliateUrl campaignId itemUrl customId =
      itemUrl ++ (if jsIncludes itemUrl '?' then "&" else "?") ++
        "mkevt=1&mkcid=1&campid=" ++ encodeURIComponent campaignId ++
        "&toolid=10001" ++
        (match customId with
         | some c => if c == "" then "" else "&customid=" ++ encodeURIComponent c
         | none => "") ∧
    (jsIncludes itemUrl '?' = false →
      countQ (buildAffiliateUrl campaignId itemUrl customId) = 1) := by
  constructor
  · exact buildAffiliateUrl_eq campaignId itemUrl customId
  · intro h
    rw [buildAffiliateUrl_eq]
    have k0 := countQ_eq_zero_of_not_includes h
    have ke := encodeURIComponent_countQ campaignId
    have k1 : countQ "?" = 1 := rfl
    have k2 : countQ "mkevt=1&mkcid=1&campid=" = 0 := rfl
    have k3 : countQ "&toolid=10001" = 0 := rfl
    have k4 : countQ "" = 0 := rfl
    have k5 : countQ "&customid=" = 0 := rfl
    cases customId with
    | none =>
      simp [countQ_append, h, k0, ke, k1, k2, k3, k4]
    | some c =>
      by_cases hc : (c == "") = true
      · simp [countQ_append, h, hc, k0, ke, k1, k2, k3, k4]
      · simp only [Bool.not_eq_true] at hc
        have kc := encodeURIComponent_countQ c
        simp [countQ_append, h, hc, k0, ke, k1, k2, k3, k4, k5, kc]

/-- Witness for C1 at a concrete input without a query string. -/
theorem c1_witness :
    buildAffiliateUrl "CAMP 1" "https://x.test/i/1" (some "k/1") =
      "https://x.test/i/1?mkevt=1&mkcid=1&campid=CAMP%201&toolid=10001&customid=k%2F1" ∧
    countQ (buildAffiliateUrl "CAMP 1" "https://x.test/i/1" (some "k/1")) = 1 :=
  ⟨(c1_affiliate_url_format "CAMP 1" "https://x.test/i/1" (some "k/1")).1.trans
      (by decide),
    (c1_affiliate_url_format "CAMP 1" "https://x.test/i/1" (some "k/1")).2
      (by decide)⟩

/-- C2 (amended): `buildAffiliateUrl` is pure and total, with no failure
mode at all: for every itemUrl string — well-formed URL or not — it
returns a string extending itemUrl; no input is ever rejected. -/
theorem c2_pure_total_no_rejection (campaignId itemUrl : String)
    (customId : Option String) :
    ∃ rest : String,
      buildAffiliateUrl campaignId itemUrl customId = itemUrl ++ rest := by
  refine ⟨(if jsIncludes itemUrl '?' then "&" else "?") ++
    "mkevt=1&mkcid=1&campid=" ++ encodeURIComponent campaignId ++
    "&toolid=10001" ++
    (match customId with
     | some c => if c == "" then "" else "&customid=" ++ encodeURIComponent c
     | none => ""), ?_⟩
  rw [buildAffiliateUrl_eq]
  simp [strAppend_assoc]

/-- Counterexample for C2 as stated: a clearly malformed itemUrl is not
rejected as invalid input — `buildAffiliateUrl` returns an ordinary string
built from it. -/
theorem c2_counterexample :
    buildAffiliateUrl "CAMP" ":::this is not a URL:::" none =
      ":::this is not a URL:::?mkevt=1&mkcid=1&campid=CAMP&toolid=10001" := by
  decide

/-- C10: calling `buildAffiliateUrl` with the empty string as customId
produces exactly the output of calling it with no customId, and the
`customid` parameter is appended exactly when customId is a non-empty
string. -/
theorem c10_empty_customid_like_none (campaignId itemUrl : String) :
    buildAffiliateUrl campaignId itemUrl (some "") =
      buildAffiliateUrl campaignId itemUrl none ∧
    ∀ c : String, c ≠ "" →
      buildAffiliateUrl campaignId itemUrl (some c) =
        buildAffiliateUrl campaignId itemUrl none ++
          ("&customid=" ++ encodeURIComponent c) := by
  constructor
  · rfl
  · intro c hc
    have e : (c == "") = false := beq_eq_false_iff_ne.mpr hc
    simp [buildAffiliateUrl, e]

/-- Witness for C10 at concrete inputs. -/
theorem c10_witness :
    buildAffiliateUrl "C" "https://x.test/i/1" (some "") =
      buildAffiliateUrl "C" "https://x.test/i/1" none ∧
    buildAffiliateUrl "C" "https://x.test/i/1" (some "k") =
      buildAffiliateUrl "C" "https://x.test/i/1" none ++
        ("&customid=" ++ encodeURIComponent "k") :=
  ⟨(c10_empty_customid_like_none "C" "https://x.test/i/1").1,
    (c10_empty_customid_like_none "C" "https://x.test/i/1").2 "k" (by decide)⟩

/-- C3 (amended): for every cache state holding a non-empty token whose
expiry is more than 5000 ms after the current time, `getAppToken` returns
the cached token, performs no upstream call, and leaves the cache
unchanged; a second call within the safety margin before expiry returns
the identical token, again with no upstream call. -/
theorem c3_cached_token_hit (now now2 : Int) (up up2 : UpstreamAuth)
    (c : TokenCache) (t : String) (e : Int)
    (ht : c.token = some t) (hne : t ≠ "") (he : c.expiresAt = some e)
    (h1 : now + 5000 < e) (h2 : now2 + 5000 < e) :
    getAppToken now up c = ⟨.ok (some t), c, false⟩ ∧
    getAppToken now2 up2 (getAppToken now up c).cache =
      ⟨.ok (some t), c, false⟩ := by
  have htr : strTruthy c.token = true := by
    rw [ht]
    simp [strTruthy, hne]
  have hg1 : jsGtOpt c.expiresAt (now + 5000) = true := by
    rw [he]
    simp [jsGtOpt, h1]
  have hg2 : jsGtOpt c.expiresAt (now2 + 5000) = true := by
    rw [he]
    simp [jsGtOpt, h2]
  have step1 : getAppToken now up c = ⟨.ok (some t), c, false⟩ := by
    unfold getAppToken
    rw [htr, hg1, ht]
    rfl
  refine ⟨step1, ?_⟩
  rw [step1]
  unfold getAppToken
  rw [htr, hg2, ht]
  rfl

/-- Witness for C3 at a concrete cache state and clock. -/
theorem c3_witness :
    getAppToken 0 (.failure none none) ⟨some "tok", some 999999⟩ =
      ⟨.ok (some "tok"), ⟨some "tok", some 999999⟩, false⟩ ∧
    getAppToken 7 (.failure (some 503) none)
        (getAppToken 0 (.failure none none)
          ⟨some "tok", some 999999⟩).cache =
      ⟨.ok (some "tok"), ⟨some "tok", some 999999⟩, false⟩ :=
  c3_cached_token_hit 0 7 (.failure none none) (.failure (some 503) none)
    ⟨some "tok", some 999999⟩ "tok" 999999 rfl (by decide) rfl
    (by decide) (by decide)

/-- Counterexample for C3 as stated: a cache whose token field holds the
(present) empty string with a far-future expiry is not served from the
cache — the upstream endpoint is called and the cache is overwritten,
because `if (cached.token && ...)` treats the empty string as falsy. -/
theorem c3_counterexample :
    getAppToken 0 (.success ⟨some "fresh", some 7200⟩)
        ⟨some "", some 10000000⟩ =
      ⟨.ok (some "fresh"), ⟨some "fresh", some 7200000⟩, true⟩ := by
  rfl

/-- C4: on a cache miss, a successful credential-exchange response carrying
an access token and a lifetime in seconds makes `getAppToken` store the
returned token, set the cached expiry to `now + lifetime × 1000`
milliseconds, perform the one upstream call, and return the stored
token. -/
theorem c4_refresh_success (now : Int) (c : TokenCache) (tok : String)
    (life : Int)
    (hmiss : (strTruthy c.token && jsGtOpt c.expiresAt (now + 5000)) = false) :
    getAppToken now (.success ⟨some tok, some life⟩) c =
      ⟨.ok (some tok), ⟨some tok, some (now + life * 1000)⟩, true⟩ := by
  unfold getAppToken
  rw [hmiss]
  rfl

/-- Witness for C4: refresh from the initial (empty) cache. -/
theorem c4_witness :
    getAppToken 1000 (.success ⟨some "abc", some 7200⟩) ⟨none, some 0⟩ =
      ⟨.ok (some "abc"), ⟨some "abc", some 7201000⟩, true⟩ :=
  c4_refresh_success 1000 ⟨none, some 0⟩ "abc" 7200 (by decide)

/-- C5 (evaluation at the failing input): a 2xx token response whose body
carries no `access_token`/`expires_in` (a malformed body) is not treated
as a failure — `getAppToken` overwrites the cached token with `undefined`
and the cached expiry with `NaN`, and returns `undefined` instead of
surfacing an `UpstreamAuthError`. -/
theorem c5_malformed_body_mutates_cache :
    getAppToken 1000000 (.success ⟨none, none⟩) ⟨some "old", some 1000⟩ =
      ⟨.ok none, ⟨none, none⟩, true⟩ ∧
    (⟨none, none⟩ : TokenCache) ≠ ⟨some "old", some 1000⟩ := by
  constructor
  · rfl
  · decide

/-- C6: a missing, empty or whitespace-only query makes `/search` answer
400 "Missing q parameter" before any upstream call: neither the token
endpoint nor the search endpoint is contacted and the token cache is
unchanged. -/
theorem c6_blank_query_rejected (campaignId : String)
    (q limitParam : Option String) (now : Int) (auth : UpstreamAuth)
    (srch : UpstreamSearch) (cache : TokenCache)
    (hq : q = none ∨ ∃ s, q = some s ∧ jsTrim s = "") :
    searchHandler campaignId q limitParam now auth srch cache =
      ⟨.badRequest "Missing q parameter", cache, false, none⟩ := by
  have hcond : strTruthy q = false ∨ jsTrim (q.getD "") = "" := by
    rcases hq with rfl | ⟨s, rfl, hs⟩
    · left
      rfl
    · right
      simpa using hs
  unfold searchHandler
  rw [if_pos hcond]

/-- Witness for C6 at the whitespace-only query `"   "`. -/
theorem c6_witness :
    searchHandler "C" (some "   ") (some "10") 0 (.failure none none)
        (.failure none none) ⟨none, some 0⟩ =
      ⟨.badRequest "Missing q parameter", ⟨none, some 0⟩, false, none⟩ :=
  c6_blank_query_rejected "C" (some "   ") (some "10") 0
    (.failure none none) (.failure none none) ⟨none, some 0⟩
    (Or.inr ⟨"   ", rfl, by decide⟩)

/-- C7: whenever `/search` reaches the upstream search call, the limit it
passes is `effectiveLimit limitParam`; that effective limit is the
requested limit capped at 100 (`Math.min(·, 100)`), defaults to 25 when no
limit is specified, and is exactly 100 for a requested limit of 500. -/
theorem c7_limit_clamp (campaignId s : String) (limitParam : Option String)
    (now : Int) (auth : UpstreamAuth) (srch : UpstreamSearch)
    (cache : TokenCache) (t : Option String)
    (hs : jsTrim s ≠ "")
    (htok : (getAppToken now auth cache).result = .ok t) :
    (searchHandler campaignId (some s) limitParam now auth srch cache).searchCall =
      some (s, effectiveLimit limitParam) ∧
    effectiveLimit none = some 25 ∧
    (∀ ls r, jsParseInt10 ls = some r →
      effectiveLimit (some ls) = some (min r 100)) ∧
    effectiveLimit (some "500") = some 100 := by
  refine ⟨?_, by decide, ?_, by decide⟩
  · have hsne : s ≠ "" := by
      intro h
      subst h
      exact hs rfl
    cases srch with
    | success d => simp [searchHandler, strTruthy, hsne, hs, htok]
    | failure st data => simp [searchHandler, strTruthy, hsne, hs, htok]
  · intro ls r h
    by_cases hl : ls = ""
    · subst hl
      rw [show jsParseInt10 "" = none from rfl] at h
      exact Option.noConfusion h
    · have e : (ls == "") = false := beq_eq_false_iff_ne.mpr hl
      simp [effectiveLimit, jsOrStr, e, h, jsMinNaN]

/-- Witness for C7: `search("brakes", limit=500)` passes limit 100. -/
theorem c7_witness :
    (searchHandler "C" (some "brakes") (some "500") 5
        (.success ⟨some "tok", some 7200⟩) (.success none)
        ⟨none, some 0⟩).searchCall = some ("brakes", effectiveLimit (some "500")) ∧
    effectiveLimit none = some 25 ∧
    (∀ ls r, jsParseInt10 ls = some r →
      effectiveLimit (some ls) = some (min r 100)) ∧
    effectiveLimit (some "500") = some 100 :=
  c7_limit_clamp "C" "brakes" (some "500") 5
    (.success ⟨some "tok", some 7200⟩) (.success none) ⟨none, some 0⟩
    (some "tok") (by decide) rfl

/-- C8 (amended): every enriched item copies itemId, title, price, image
and itemWebUrl verbatim from the upstream item; affiliateUrl is null
exactly when itemWebUrl is absent/null or the empty string, and equals
`buildAffiliateUrl itemWebUrl` (no customId) when itemWebUrl is a
non-empty string. -/
theorem c8_enriched_item_mapping (campaignId : String) (it : ItemSummary) :
    (enrichItem campaignId it).itemId = it.itemId ∧
    (enrichItem campaignId it).title = it.title ∧
    (enrichItem campaignId it).price = it.price ∧
    (enrichItem campaignId it).image = it.image ∧
    (enrichItem campaignId it).itemWebUrl = it.itemWebUrl ∧
    ((enrichItem campaignId it).affiliateUrl = none ↔
      (it.itemWebUrl = none ∨ it.itemWebUrl = some "")) ∧
    ∀ u, it.itemWebUrl = some u → u ≠ "" →
      (enrichItem campaignId it).affiliateUrl =
        some (buildAffiliateUrl campaignId u none) := by
  refine ⟨rfl, rfl, rfl, rfl, rfl, ?_, ?_⟩
  · cases hw : it.itemWebUrl with
    | none => simp [enrichItem, hw]
    | some u =>
      by_cases hu : (u == "") = true
      · have : u = "" := by simpa using hu
        subst this
        simp [enrichItem, hw]
      · simp only [Bool.not_eq_true] at hu
        have hne : u ≠ "" := beq_eq_false_iff_ne.mp hu
        simp [enrichItem, hw, hu, hne]
  · intro u hw hne
    have e : (u == "") = false := beq_eq_false_iff_ne.mpr hne
    simp [enrichItem, hw, e]

/-- Witness for C8 at an item with a non-empty itemWebUrl. -/
theorem c8_witness :
    (enrichItem "C" ⟨some "id1", some "ti", some "pr", some "im",
        some "https://x.test/i/1"⟩).affiliateUrl =
      some (buildAffiliateUrl "C" "https://x.test/i/1" none) :=
  (c8_enriched_item_mapping "C"
      ⟨some "id1", some "ti", some "pr", some "im",
        some "https://x.test/i/1"⟩).2.2.2.2.2.2
    "https://x.test/i/1" rfl (by decide)

/-- Counterexample for C8 as stated: an upstream item whose itemWebUrl is
the (present) empty string gets affiliateUrl = null, although its
itemWebUrl is neither absent nor null — `it.itemWebUrl ?` treats the empty
string as falsy. -/
theorem c8_counterexample :
    (enrichItem "C" ⟨some "id1", some "ti", some "pr", some "im",
        some ""⟩).affiliateUrl = none ∧
    (⟨some "id1", some "ti", some "pr", some "im", some ""⟩ :
        ItemSummary).itemWebUrl ≠ none := by
  constructor
  · rfl
  · decide

/-- C9 (amended): `/go` answers 400 exactly when the url parameter is
missing, empty, or not percent-decodable; for a present, non-empty,
decodable parameter it redirects (302) to `buildAffiliateUrl` applied to
the decoded url with no customId — in particular
`"https%3A%2F%2Fx.test%2Fi%2F1"` yields
`"https://x.test/i/1?mkevt=1&mkcid=1&campid=<id>&toolid=10001"`. -/
theorem c9_redirect_resolution (campaignId : String) (raw : Option String) :
    ((∃ m, goHandler campaignId raw = .badRequest m) ↔
      (raw = none ∨ raw = some "" ∨
        ∃ r, raw = some r ∧ decodeURIComponent r = none)) ∧
    (∀ r d, raw = some r → r ≠ "" → decodeURIComponent r = some d →
      goHandler campaignId raw =
        .redirect 302 (buildAffiliateUrl campaignId d none)) ∧
    goHandler campaignId (some "https%3A%2F%2Fx.test%2Fi%2F1") =
      .redirect 302 ("https://x.test/i/1?mkevt=1&mkcid=1&campid=" ++
        encodeURIComponent campaignId ++ "&toolid=10001") := by
  refine ⟨?_, ?_, ?_⟩
  · cases raw with
    | none => simp [goHandler]
    | some r =>
      by_cases hr : (r == "") = true
      · have : r = "" := by simpa using hr
        subst this
        simp [goHandler]
      · simp only [Bool.not_eq_true] at hr
        have hrne : r ≠ "" := beq_eq_false_iff_ne.mp hr
        cases hd : decodeURIComponent r with
        | none => simp [goHandler, hr, hd, hrne]
        | some d => simp [goHandler, hr, hd, hrne]
  · intro r d hraw hrne hd
    subst hraw
    have e : (r == "") = false := beq_eq_false_iff_ne.mpr hrne
    simp [goHandler, e, hd]
  · rfl

/-- Witness for C9 at a concrete decodable input. -/
theorem c9_witness :
    goHandler "C" (some "abc") =
      .redirect 302 (buildAffiliateUrl "C" "abc" none) :=
  (c9_redirect_resolution "C" (some "abc")).2.1 "abc" "abc" rfl
    (by decide) rfl

/-- Counterexample for C9 as stated: the empty url parameter is present
and perfectly decodable, yet `/go` answers 400 "Missing url" instead of
redirecting — `if (!raw)` treats the empty string as missing. -/
theorem c9_counterexample :
    goHandler "CAMP" (some "") = .badRequest "Missing url" ∧
    decodeURIComponent "" = some "" := by
  constructor
  · rfl
  · rfl
